import Mathlib

/-!
Verification of the hardened Gorgias ticket-creation handler
(`/api/create-ticket.js`, the hardened variant: the one carrying rate
limiting, origin enforcement, HTML escaping and generic error bodies).

The JavaScript source is shallowly embedded: JS strings are Lean
`String`s (reasoned about through their `data : List Char`), JS objects
of form fields are association lists, the formidable parse result and
every outbound HTTP call (attachment upload, ticket creation, CAPTCHA
verification) are supplied by an explicit `World` of oracles, and the
handler is a pure function from configuration, request, world and
rate-limit state to a response record that also logs the observable
side effects (upload calls, ticket call, unlink attempts).

Caveats of the embedding, stated once: JS `String.prototype.length`,
`substring` and `trim` operate on UTF-16 code units and Unicode
whitespace; the embedding counts Unicode scalar values (`List Char`)
and uses an explicit whitespace character list. No claim depends on
the difference.
-/

set_option maxRecDepth 8192

namespace Gorgias

/-! ## JS primitive helpers -/

/-- JS `a || b` on strings: the empty string is falsy. -/
def jsOr (a b : String) : String := if a = "" then b else a

/-- JS truthiness of a possibly-absent string property
(`undefined` and `""` are falsy). -/
def jsTruthy (o : Option String) : Bool :=
  match o with
  | none => false
  | some s => s ≠ ""

/-- JS `a || b` where `a` is a possibly-absent string (used for
`fileData.name || file.originalFilename`). -/
def jsOrOpt (a b : Option String) : Option String :=
  match a with
  | none => b
  | some s => if s = "" then b else a

/-- Whitespace characters recognised by the embedding of JS `trim`
(space, tab, newline, carriage return, vertical tab, form feed,
no-break space). -/
def isJsWs (c : Char) : Bool :=
  c = ' ' || c = '\t' || c = '\n' || c = '\r' || c = '\x0b' || c = '\x0c' || c = '\xa0'

/-- JS `String.prototype.trim`. -/
def jsTrim (s : String) : String :=
  ⟨((s.data.dropWhile isJsWs).reverse.dropWhile isJsWs).reverse⟩

/-- JS `String.prototype.split` with a single-character separator,
on character lists (`"".split(c) = [""]`, `",".split(",") = ["", ""]`). -/
def splitChar (c : Char) : List Char → List (List Char)
  | [] => [[]]
  | x :: xs =>
      let r := splitChar c xs
      if x = c then [] :: r
      else
        match r with
        | [] => [[x]]
        | y :: ys => (x :: y) :: ys

/-- JS `s.split(c)` for a single-character separator, on strings. -/
def jsSplit (s : String) (c : Char) : List String :=
  (splitChar c s.data).map String.mk

/-- JS `s.substring(0, n)` (clamping, like `String.take`). -/
def jsSubstringTo (n : Nat) (s : String) : String := ⟨s.data.take n⟩

/-- JS `Array.prototype.join(" ")`. -/
def joinSpace : List String → String
  | [] => ""
  | [s] => s
  | s :: rest => s ++ " " ++ joinSpace rest

/-- Global single-character replacement on character lists. -/
def replC (c : Char) (r : List Char) (l : List Char) : List Char :=
  l.flatMap fun x => if x = c then r else [x]

/-- JS `String.prototype.replace` with a global single-character
pattern: every occurrence of `c` is replaced by `r`. -/
def jsReplaceAllChar (s : String) (c : Char) (r : String) : String :=
  ⟨replC c r.data s.data⟩

/-- JS `parseInt` (radix 10 or auto-detected hex), returning `none`
for `NaN`: leading whitespace stripped, optional sign, `0x` prefix
switches to hexadecimal, parses the longest digit prefix. -/
def parseDigits (base : Nat) (isDig : Char → Bool) (val : Char → Nat) : List Char → Nat → Nat
  | [], acc => acc
  | c :: cs, acc => if isDig c then parseDigits base isDig val cs (acc * base + val c) else acc

/-- The digit prefix length used by `jsParseInt`. -/
def digitPrefixLen (isDig : Char → Bool) : List Char → Nat
  | [] => 0
  | c :: cs => if isDig c then digitPrefixLen isDig cs + 1 else 0

/-- JS `parseInt(s)`: `none` models `NaN`. -/
def jsParseInt (s : String) : Option Int :=
  let cs := s.data.dropWhile isJsWs
  let (sign, rest) :=
    match cs with
    | '-' :: r => ((-1 : Int), r)
    | '+' :: r => ((1 : Int), r)
    | r => ((1 : Int), r)
  let (base, digs, isDig, val) :=
    match rest with
    | '0' :: 'x' :: r => (16, r, (fun c => c.isDigit || ('a' ≤ c && c ≤ 'f') || ('A' ≤ c && c ≤ 'F')),
        (fun c => if c.isDigit then c.toNat - '0'.toNat
                  else if 'a' ≤ c && c ≤ 'f' then c.toNat - 'a'.toNat + 10
                  else c.toNat - 'A'.toNat + 10))
    | '0' :: 'X' :: r => (16, r, (fun c => c.isDigit || ('a' ≤ c && c ≤ 'f') || ('A' ≤ c && c ≤ 'F')),
        (fun c => if c.isDigit then c.toNat - '0'.toNat
                  else if 'a' ≤ c && c ≤ 'f' then c.toNat - 'a'.toNat + 10
                  else c.toNat - 'A'.toNat + 10))
    | r => (10, r, Char.isDigit, (fun c => c.toNat - '0'.toNat))
  if digitPrefixLen isDig digs = 0 then none
  else some (sign * Int.ofNat (parseDigits base isDig val digs 0))

/-! ## `escapeHtml` (hardened source, lines 100-108)

```js
function escapeHtml(str) {
  if (!str) return '';
  return String(str)
    .replace(/&/g, '&amp;')
    .replace(/</g, '&lt;')
    .replace(/>/g, '&gt;')
    .replace(/"/g, '&quot;')
    .replace(/'/g, '&#39;');
}
```
-/

def escapeHtml (s : String) : String :=
  if s = "" then ""
  else
    jsReplaceAllChar
      (jsReplaceAllChar
        (jsReplaceAllChar
          (jsReplaceAllChar
            (jsReplaceAllChar s '&' "&amp;")
            '<' "&lt;")
          '>' "&gt;")
        '"' "&quot;")
      '\'' "&#39;"

/-- Single-pass character escaping: the semantics the five chained
global replaces of `escapeHtml` amount to (proved below, not assumed). -/
def escChar (c : Char) : List Char :=
  if c = '&' then "&amp;".data
  else if c = '<' then "&lt;".data
  else if c = '>' then "&gt;".data
  else if c = '"' then "&quot;".data
  else if c = '\'' then "&#39;".data
  else [c]

/-- The HTML entity a special character is escaped to. -/
def entityOf (c : Char) : String := ⟨escChar c⟩

/-- The five special characters of the escaping invariant. -/
def specialChars : List Char := ['<', '>', '&', '"', '\'']

/-- Characters that must never appear raw in escaped output
(`&` is excluded: it is the lead character of every entity). -/
def rawForbidden : List Char := ['<', '>', '"', '\'']

/-! ## `formatFieldName` (hardened source, lines 156-162)

```js
function formatFieldName(fieldName) {
  return fieldName
    .replace(/([a-z])([A-Z])/g, '$1 $2')
    .replace(/[_-]/g, ' ')
    .replace(/\b\w/g, char => char.toUpperCase())
    .trim();
}
```
-/

/-- `replace(/([a-z])([A-Z])/g, '$1 $2')`: a space is inserted between
a lowercase letter and an uppercase letter (the regex consumes both
characters, but a fresh match can never begin at the consumed uppercase
letter, so resuming at it is equivalent). -/
def camelSpace : List Char → List Char
  | [] => []
  | [a] => [a]
  | a :: b :: rest =>
      if a.isLower && b.isUpper then a :: ' ' :: camelSpace (b :: rest)
      else a :: camelSpace (b :: rest)

/-- `replace(/[_-]/g, ' ')`. -/
def dashUnderscoreToSpace (l : List Char) : List Char :=
  l.map fun c => if c = '_' || c = '-' then ' ' else c

/-- JS `\w`: ASCII letter, digit or underscore. -/
def isWordChar (c : Char) : Bool := c.isAlpha || c.isDigit || c = '_'

/-- `replace(/\b\w/g, char => char.toUpperCase())`: uppercase every
word character preceded by a non-word character or the string start.
The Boolean argument records whether the previous character was a word
character. -/
def capWordStarts : Bool → List Char → List Char
  | _, [] => []
  | prev, c :: rest =>
      (if !prev && isWordChar c then c.toUpper else c) :: capWordStarts (isWordChar c) rest

def formatFieldName (fieldName : String) : String :=
  jsTrim ⟨capWordStarts false (dashUnderscoreToSpace (camelSpace fieldName.data))⟩

/-! ## `generateGenericTicketBody` (hardened source, lines 167-205) -/

/-- Fields of a parsed submission: name/value pairs, multi-value fields
already flattened to their first occurrence by `parseMultipart`. -/
abbrev Fields := List (String × String)

/-- `RESERVED_FIELDS` (hardened source, line 73). -/
def RESERVED_FIELDS : List String :=
  ["formType", "tags", "customSubject", "subject", "fileFieldName", "turnstileToken"]

/-- The renderable fields: not reserved, truthy, and non-blank after
trimming (source lines 172-174). -/
def dataFields (fields : Fields) : Fields :=
  fields.filter fun kv => !(RESERVED_FIELDS.contains kv.1) && kv.2 ≠ "" && jsTrim kv.2 ≠ ""

def bodyHeader : String :=
  "\n    <div style=\"font-family: \x27Segoe UI\x27, Arial, sans-serif; font-size: 14px; line-height: 1.6; color: #333; max-width: 800px;\">\n  "

def noDataMsg : String :=
  "<p style=\"color: #999; font-style: italic;\">No additional data submitted</p>"

/-- One iteration of the rendering loop (source lines 179-200): label and
value are both HTML-escaped; the long-text layout is chosen when the
trimmed value exceeds 100 characters or the raw value contains a newline. -/
def renderField (kv : String × String) : String :=
  let label := escapeHtml (formatFieldName kv.1)
  let displayValue := escapeHtml (jsTrim kv.2)
  let isLongText := (jsTrim kv.2).data.length > 100 || kv.2.data.contains '\n'
  if isLongText then
    "\n          <div style=\"margin: 20px 0; padding: 15px; background: #f8f9fa; border-left: 3px solid #21808D; border-radius: 4px;\">\n            <strong style=\"display: block; color: #134252; margin-bottom: 8px; font-size: 15px;\">"
      ++ label
      ++ "</strong>\n            <div style=\"color: #333; white-space: pre-wrap; line-height: 1.5;\">"
      ++ displayValue
      ++ "</div>\n          </div>\n        "
  else
    "\n          <div style=\"margin: 12px 0; padding: 10px 0; border-bottom: 1px solid #e9ecef;\">\n            <strong style=\"color: #134252; display: inline-block; min-width: 140px;\">"
      ++ label
      ++ ":</strong>\n            <span style=\"color: #333;\">"
      ++ displayValue
      ++ "</span>\n          </div>\n        "

/-- The `for (const [key, value] of dataFields)` accumulation loop. -/
def renderAll : Fields → String
  | [] => ""
  | kv :: rest => renderField kv ++ renderAll rest

/-- `generateGenericTicketBody` (the `formType` parameter is unused in
the source as well). -/
def generateGenericTicketBody (formType : String) (fields : Fields) : String :=
  bodyHeader ++
    (if (dataFields fields).length = 0 then noDataMsg else renderAll (dataFields fields))
    ++ "</div>"

/-- Concrete submission used by the C1 witness. -/
def c1Fields : Fields := [("formType", "contact-form"), ("email", "a@b.co"), ("message", "<X&>")]

/-- A probe string containing all five special characters. -/
def probeAllFive : String := "<>&\"\x27"

/-! ## Rate limiting (hardened source, lines 82-95)

```js
const rateLimitMap = new Map();
const RATE_LIMIT = 5;
const RATE_WINDOW = 60000; // 1 minute

function checkRateLimit(ip) {
  const now = Date.now();
  const record = rateLimitMap.get(ip);
  if (!record || now - record.start > RATE_WINDOW) {
    rateLimitMap.set(ip, { start: now, count: 1 });
    return true;
  }
  record.count++;
  return record.count <= RATE_LIMIT;
}
```
-/

structure RLRecord where
  start : Nat
  count : Nat
deriving DecidableEq

def RATE_LIMIT : Nat := 5

def RATE_WINDOW : Nat := 60000

/-- The in-memory `rateLimitMap`, as an insertion-ordered association
list (the shape of a JS `Map`). -/
abbrev RLState := List (String × RLRecord)

def rlGet (m : RLState) (ip : String) : Option RLRecord :=
  (m.find? (·.1 = ip)).map (·.2)

def rlSet (m : RLState) (ip : String) (r : RLRecord) : RLState :=
  if m.any (·.1 = ip) then m.map (fun kv => if kv.1 = ip then (ip, r) else kv)
  else m ++ [(ip, r)]

/-- `checkRateLimit`, with `Date.now()` passed in as `now`; returns the
pass/fail verdict and the updated map (JS mutates `record.count` in
place, which is the `rlSet` in the else-branch). -/
def checkRateLimit (now : Nat) (ip : String) (m : RLState) : Bool × RLState :=
  match rlGet m ip with
  | none => (true, rlSet m ip ⟨now, 1⟩)
  | some r =>
      if now - r.start > RATE_WINDOW then (true, rlSet m ip ⟨now, 1⟩)
      else (decide (r.count + 1 ≤ RATE_LIMIT), rlSet m ip ⟨r.start, r.count + 1⟩)

/-- Verdicts of a whole request trace `(arrival time, client IP)`,
threading the map through `checkRateLimit`. -/
def runTrace : List (Nat × String) → RLState → List Bool
  | [], _ => []
  | (t, ip) :: rest, m =>
      (checkRateLimit t ip m).1 :: runTrace rest (checkRateLimit t ip m).2

/-- The `(arrival time, verdict)` subsequence of one client IP in a trace
started from the empty map. -/
def ipResults (tr : List (Nat × String)) (ip : String) : List (Nat × Bool) :=
  ((tr.zip (runTrace tr [])).filter (fun x => x.1.2 = ip)).map (fun x => (x.1.1, x.2))

/-- The C2 claim as stated: in any time-monotone trace, whenever six
requests of the same client IP fall within one *rolling* 60-second window
(the sixth arrives at most 60 seconds after the first of them), the sixth
is rejected. Refuted below: the implemented window is fixed, anchored at
the recorded window start. -/
def rollingWindowRejects : Prop :=
  ∀ (tr : List (Nat × String)) (ip : String),
    List.Pairwise (· ≤ ·) (tr.map (·.1)) →
    ∀ (i : Nat) (h : i + 5 < (ipResults tr ip).length),
      ((ipResults tr ip).get ⟨i + 5, h⟩).1 - ((ipResults tr ip).get ⟨i, by omega⟩).1 ≤ RATE_WINDOW →
      ((ipResults tr ip).get ⟨i + 5, h⟩).2 = false

/-- Five requests late in one fixed window followed by two at the start of
the next: requests 2..7 all pass although requests 2..7 span six seconds. -/
def c2Trace : List (Nat × String) :=
  [(0, "ip"), (55000, "ip"), (56000, "ip"), (57000, "ip"), (58000, "ip"),
   (60001, "ip"), (61000, "ip")]

/-! ## Validation constants and the email pattern (source lines 62-77) -/

def ALLOWED_FORM_TYPES : List String := ["b2b-form", "contact-form", "Playspace Design"]

def MAX_FIELD_LENGTH : Nat := 10000

/-- A character admitted by `[^\s@]` in the email pattern. -/
def emailOkChar (c : Char) : Bool := !(isJsWs c) && c ≠ '@'

/-- `EMAIL_REGEX.test`, for `/^[^\s@]+@[^\s@]+\.[^\s@]{2,}$/`: exactly one
`@`; a nonempty local part without whitespace; a domain part without
whitespace containing a dot preceded by at least one character and
followed by at least two. -/
def emailRegexTest (s : String) : Bool :=
  match jsSplit s '@' with
  | [a, r] =>
      a ≠ "" && a.data.all emailOkChar && r.data.all emailOkChar &&
        ((List.range r.data.length).any fun i =>
          r.data.getD i ' ' = '.' && 1 ≤ i && i + 3 ≤ r.data.length)
  | _ => false

/-! ## JSON response values -/

/-- JSON values, rich enough for every body `res.json(...)` can send. -/
inductive JVal where
  | jnull
  | jbool (b : Bool)
  | jnum (n : Nat)
  | jstr (s : String)
  | jarr (xs : List JVal)
  | jobj (fields : List (String × JVal))

mutual

/-- Whether the string `t` occurs anywhere in a JSON value (as a string
leaf or an object key). -/
def JVal.hasStr : JVal → String → Bool
  | .jnull, _ => false
  | .jbool _, _ => false
  | .jnum _, _ => false
  | .jstr s, t => s = t
  | .jarr xs, t => hasStrArr xs t
  | .jobj xs, t => hasStrObj xs t

def hasStrArr : List JVal → String → Bool
  | [], _ => false
  | x :: xs, t => x.hasStr t || hasStrArr xs t

def hasStrObj : List (String × JVal) → String → Bool
  | [], _ => false
  | kv :: xs, t => kv.1 = t || kv.2.hasStr t || hasStrObj xs t

end

/-- The numeric field `k` of a JSON object body (0 if absent). -/
def bodyNum (j : JVal) (k : String) : Nat :=
  match j with
  | .jobj xs =>
      match xs.find? (·.1 = k) with
      | some kv => match kv.2 with | .jnum n => n | _ => 0
      | none => 0
  | _ => 0

def errBody (msg : String) : JVal := .jobj [("error", .jstr msg)]

def unexpectedErrorMsg : String := "An unexpected error occurred. Please try again later."

/-! ## Parsed files and the upstream world -/

/-- A formidable temporary-file handle. -/
structure FileEntry where
  filepath : String
  originalFilename : Option String
  newFilename : String
  mimetype : Option String
deriving DecidableEq

/-- A value of the `files` object: one file or an array of files. -/
inductive FileVal where
  | single (f : FileEntry)
  | multi (fs : List FileEntry)
deriving DecidableEq

/-- `Array.isArray(fileOrFiles) ? fileOrFiles : [fileOrFiles]`. -/
def toFilesArray : FileVal → List FileEntry
  | .single f => [f]
  | .multi fs => fs

abbrev FilesMap := List (String × FileVal)

def allFiles (files : FilesMap) : List FileEntry :=
  files.flatMap fun kv => toFilesArray kv.2

def allFilePaths (files : FilesMap) : List String := (allFiles files).map (·.filepath)

def countAllFiles (files : FilesMap) : Nat := (allFiles files).length

/-- The JSON object a successful `/api/upload` call yields
(`Array.isArray(data) ? data[0] : data`, already selected). -/
structure UploadData where
  url : String
  name : Option String
  size : Nat
  content_type : String
deriving DecidableEq

/-- The normalized attachment descriptor built from an upload response. -/
structure Attachment where
  url : String
  name : Option String
  size : Nat
  content_type : String
deriving DecidableEq

structure RejectedFile where
  filename : Option String
  reason : String
deriving DecidableEq

structure TicketData where
  id : Nat
deriving DecidableEq

/-- The HTTP response of the `/tickets` call: `ok`, `status`, the error
text read on failure, and the parsed JSON on success. -/
structure TicketResp where
  ok : Bool
  status : Nat
  text : String
  tdata : TicketData
deriving DecidableEq

/-- The result of the `parseMultipart` promise. -/
structure ParseOut where
  fields : Fields
  files : FilesMap

/-- Outcome of `JSON.parse` on the `tags` field, abstracted at the JS
builtin boundary: `throws` models a parse exception, `nonArray` a
successful parse whose result is not an array, and `array es` a parsed
array whose elements are given already converted by JS `String()` (the
composition the source applies elementwise). -/
inductive JsonArrParse where
  | throws
  | nonArray
  | array (elems : List String)

/-- The oracles for everything outside this module's own code: the
multipart parser, the CAPTCHA verification call, the per-file attachment
upload call (keyed by temp filepath), the ticket-creation call, and
`JSON.parse` on the tags field. `Except.error` models a thrown
exception/rejected promise. -/
structure World where
  parse : Except Unit ParseOut
  captcha : Except Unit Bool
  upload : String → Except Unit UploadData
  ticket : Except Unit TicketResp
  jsonTags : String → JsonArrParse

/-! ## Configuration and request -/

/-- Environment-derived configuration. String-typed variables use `""`
to model an unset variable (both are JS-falsy in every use site). -/
structure Config where
  allowedOrigins : List String
  subdomain : String
  username : String
  apiKey : String
  supportEmail : String
  turnstileSecret : String
  integrationB2b : Option String
  integrationContact : Option String
  integrationDesign : Option String

/-- `INTEGRATION_MAP[formType]` (source lines 66-70): `undefined` for a
key outside the fixed three. -/
def INTEGRATION_MAP (cfg : Config) (ft : String) : Option String :=
  if ft = "b2b-form" then cfg.integrationB2b
  else if ft = "contact-form" then cfg.integrationContact
  else if ft = "Playspace Design" then cfg.integrationDesign
  else none

structure Request where
  method : String
  origin : Option String
  xForwardedFor : Option String
  remoteAddress : Option String

def getField (fields : Fields) (k : String) : Option String :=
  (fields.find? (·.1 = k)).map (·.2)

def getFieldD (fields : Fields) (k : String) : String := (getField fields k).getD ""

/-- `fields.subject = ...`: property assignment on the fields object. -/
def setField (fields : Fields) (k v : String) : Fields :=
  fields.map fun kv => if kv.1 = k then (k, v) else kv

/-- `!subdomain || !username || !apiKey` (source line 300). -/
def credsMissing (cfg : Config) : Bool :=
  cfg.subdomain = "" || cfg.username = "" || cfg.apiKey = ""

/-! ## Upload loop (source lines 356-375) -/

structure UploadOut where
  uploaded : List Attachment
  rejected : List RejectedFile
  calls : List String
deriving DecidableEq

/-- `uploadAttachmentToGorgias`: the fetch either throws / returns
non-ok (both `.error`, both caught per-file by the loop) or yields the
normalized descriptor with `name: fileData.name || file.originalFilename`. -/
def uploadFile (w : World) (f : FileEntry) : Except Unit Attachment :=
  match w.upload f.filepath with
  | .error e => .error e
  | .ok u => .ok { url := u.url, name := jsOrOpt u.name f.originalFilename,
                   size := u.size, content_type := u.content_type }

def processFileList (w : World) : List FileEntry → UploadOut
  | [] => ⟨[], [], []⟩
  | f :: fs =>
      let rest := processFileList w fs
      match uploadFile w f with
      | .ok a => ⟨a :: rest.uploaded, rest.rejected, f.filepath :: rest.calls⟩
      | .error _ =>
          ⟨rest.uploaded, ⟨f.originalFilename, "Upload failed"⟩ :: rest.rejected,
            f.filepath :: rest.calls⟩

/-- The double loop over `Object.entries(files)`. -/
def processUploads (w : World) : FilesMap → UploadOut
  | [] => ⟨[], [], []⟩
  | kv :: rest =>
      let here := processFileList w (toFilesArray kv.2)
      let there := processUploads w rest
      ⟨here.uploaded ++ there.uploaded, here.rejected ++ there.rejected,
        here.calls ++ there.calls⟩

/-! ## Tag resolution (source lines 387-400) -/

structure Tag where
  name : String
deriving DecidableEq

/-- `fields.tags.split(',').map(t => t.trim()).filter(t => t)`. -/
def commaTags (t : String) : List String :=
  ((jsSplit t ',').map jsTrim).filter (· ≠ "")

def resolveTags (jp : String → JsonArrParse) (formType : String)
    (tagsField : Option String) : List Tag :=
  if jsTruthy tagsField then
    match jp (tagsField.getD "") with
    | .array es => es.map fun e => ⟨jsSubstringTo 100 e⟩
    | .nonArray => [⟨formType⟩]
    | .throws =>
        if (commaTags (tagsField.getD "")).length > 0 then
          (commaTags (tagsField.getD "")).map fun t => ⟨jsSubstringTo 100 t⟩
        else [⟨formType⟩]
  else [⟨formType⟩]

/-! ## Ticket payload (source lines 377-437) -/

structure Customer where
  email : String
  name : String
  firstname : String
  lastname : String
deriving DecidableEq

structure MsgSource where
  type : String
  toAddrs : List String
  fromAddr : String
  fromName : String
deriving DecidableEq

structure Message where
  source : MsgSource
  body_html : String
  channel : String
  from_agent : Bool
  via : String
  public : Bool
  integration_id : Option (Option Int)
  attachments : Option (List Attachment)
deriving DecidableEq

structure TicketPayload where
  channel : String
  via : String
  customer : Customer
  subject : String
  messages : List Message
  tags : List Tag
  status : String
deriving DecidableEq

/-! ## The POST pipeline after validation -/

/-- What one run of the code inside the `try` block observably produces. -/
structure FlowOut where
  status : Nat
  body : JVal
  uploadCalls : List String := []
  ticketCalled : Bool := false
  uploaded : List Attachment := []
  rejected : List RejectedFile := []
  payloadSent : Option TicketPayload := none

def flowErr (status : Nat) (msg : String) : FlowOut :=
  { status := status, body := errBody msg }

/-- Source lines 353-462: body generation, the upload loop, customer and
subject resolution, tags, payload assembly, and the `/tickets` call
(`.error` on the fetch models a thrown network error, mapped by the
outer catch to the generic 500; a non-ok response maps to the generic
502; an ok response to the hardened success body, which carries only the
counts of uploaded and rejected files). -/
def corePipeline (cfg : Config) (w : World) (fields : Fields) (files : FilesMap) : FlowOut :=
  let ft := getFieldD fields "formType"
  let email := getFieldD fields "email"
  let ticketBodyHtml := generateGenericTicketBody ft fields
  let up := processUploads w files
  let name := jsOr (getFieldD fields "name")
    (jsOr (getFieldD fields "fullName") (getFieldD fields "firstName"))
  let firstName := jsOr (getFieldD fields "firstName") (jsOr ((jsSplit name ' ').headD "") "")
  let lastName := jsOr (getFieldD fields "lastName") (jsOr (joinSpace (jsSplit name ' ').tail) "")
  let fullName := jsOr name
    (jsOr (jsTrim (firstName ++ " " ++ lastName)) ((jsSplit email '@').headD ""))
  let subject := jsOr (getFieldD fields "subject")
    (jsOr (getFieldD fields "customSubject") (formatFieldName ft ++ " - " ++ fullName))
  let tags := resolveTags w.jsonTags ft (getField fields "tags")
  let payload : TicketPayload :=
    { channel := "email", via := "api",
      customer := { email := email, name := fullName, firstname := firstName,
                    lastname := lastName },
      subject := subject,
      messages := [
        { source := { type := "email",
                      toAddrs := [jsOr cfg.supportEmail "support@example.com"],
                      fromAddr := email, fromName := fullName },
          body_html := ticketBodyHtml, channel := "email", from_agent := false,
          via := "api", public := true,
          integration_id :=
            if jsTruthy (INTEGRATION_MAP cfg ft) then
              some (jsParseInt ((INTEGRATION_MAP cfg ft).getD ""))
            else none,
          attachments := if up.uploaded.length > 0 then some up.uploaded else none } ],
      tags := tags, status := "open" }
  match w.ticket with
  | .error _ =>
      { status := 500, body := errBody unexpectedErrorMsg, uploadCalls := up.calls,
        ticketCalled := true, uploaded := up.uploaded, rejected := up.rejected,
        payloadSent := some payload }
  | .ok r =>
      if r.ok then
        { status := 200,
          body := .jobj [("success", .jbool true), ("ticketId", .jnum r.tdata.id),
                         ("filesUploaded", .jnum up.uploaded.length),
                         ("filesRejected", .jnum up.rejected.length)],
          uploadCalls := up.calls, ticketCalled := true, uploaded := up.uploaded,
          rejected := up.rejected, payloadSent := some payload }
      else
        { status := 502, body := errBody "Failed to submit your inquiry. Please try again later.",
          uploadCalls := up.calls, ticketCalled := true, uploaded := up.uploaded,
          rejected := up.rejected, payloadSent := some payload }

/-- Source lines 327-330: `if (fields.subject) fields.subject =
escapeHtml(fields.subject).substring(0, 200)`. -/
def sanitizedFields (fields : Fields) : Fields :=
  if jsTruthy (getField fields "subject") then
    setField fields "subject" (jsSubstringTo 200 (escapeHtml (getFieldD fields "subject")))
  else fields

/-- Source lines 293-351: the validation chain inside the `try` block in
source order, then the optional CAPTCHA gate, then `corePipeline`. -/
def mainFlow (cfg : Config) (w : World) (fields : Fields) (files : FilesMap) : FlowOut :=
  if credsMissing cfg then flowErr 500 unexpectedErrorMsg
  else if !(jsTruthy (getField fields "formType")) || !(jsTruthy (getField fields "email")) then
    flowErr 400 "Missing required fields"
  else if !(ALLOWED_FORM_TYPES.contains (getFieldD fields "formType")) then
    flowErr 400 "Invalid form type"
  else if !(emailRegexTest (getFieldD fields "email")) then
    flowErr 400 "Invalid email format"
  else if fields.any (fun kv => kv.2.data.length > MAX_FIELD_LENGTH) then
    flowErr 400 "Input too long"
  else
    if cfg.turnstileSecret ≠ "" && jsTruthy (getField (sanitizedFields fields) "turnstileToken") then
      match w.captcha with
      | .ok false => flowErr 403 "Verification failed. Please try again."
      | _ => corePipeline cfg w (sanitizedFields fields) files
    else corePipeline cfg w (sanitizedFields fields) files

/-! ## Cleanup, CORS and the handler (source lines 110-119, 247-255, 260-471) -/

/-- `cleanupTempFiles`: every parsed temporary file handle is
unlink-attempted; a failing `fs.unlinkSync` is caught per file
(`try {...} catch {}`), so iteration always continues and the attempt
list never depends on which attempts fail. The Boolean records whether
the attempt succeeded (`ufail` is the unlink-failure oracle). -/
def cleanupTempFiles (ufail : String → Bool) (files : FilesMap) : List (String × Bool) :=
  files.flatMap fun kv => (toFilesArray kv.2).map fun f => (f.filepath, !ufail f.filepath)

/-- `origin && allowedOrigins.includes(origin)`; its negation is the 403
guard `!origin || !allowedOrigins.includes(origin)`. -/
def originOk (origin : Option String) (allowed : List String) : Bool :=
  jsTruthy origin && allowed.contains (origin.getD "")

def sendCORS (cfg : Config) (req : Request) : List (String × String) :=
  (if originOk req.origin cfg.allowedOrigins then
      [("Access-Control-Allow-Origin", req.origin.getD ""), ("Vary", "Origin")]
    else []) ++
  [("Access-Control-Allow-Methods", "POST,OPTIONS"),
   ("Access-Control-Allow-Headers", "Content-Type"),
   ("Access-Control-Allow-Credentials", "true")]

/-- `req.headers['x-forwarded-for']?.split(',')[0]?.trim() ||
req.socket?.remoteAddress || 'unknown'`. -/
def clientIpOf (req : Request) : String :=
  jsOr
    (match req.xForwardedFor with
     | some s => jsTrim ((jsSplit s ',').headD "")
     | none => "")
    (jsOr (req.remoteAddress.getD "") "unknown")

/-- The full observable outcome of one handler invocation. -/
structure Run where
  status : Nat
  headers : List (String × String)
  body : JVal
  rlMap : RLState
  uploadCalls : List String := []
  ticketCalled : Bool := false
  unlinkAttempts : List (String × Bool) := []
  parsedFiles : Option FilesMap := none
  uploaded : List Attachment := []
  rejected : List RejectedFile := []
  payloadSent : Option TicketPayload := none

/-- The `try { parse; ... } catch { 500 } finally { cleanup }` region: a
parse rejection leaves `files = null` so cleanup is a no-op; otherwise
cleanup runs over the parsed files whatever `mainFlow` produced. -/
def tryBlock (cfg : Config) (w : World) (ufail : String → Bool)
    (headers : List (String × String)) (rl : RLState) : Run :=
  match w.parse with
  | .error _ =>
      { status := 500, headers := headers, body := errBody unexpectedErrorMsg, rlMap := rl }
  | .ok pr =>
      let fo := mainFlow cfg w pr.fields pr.files
      { status := fo.status, headers := headers, body := fo.body, rlMap := rl,
        uploadCalls := fo.uploadCalls, ticketCalled := fo.ticketCalled,
        unlinkAttempts := cleanupTempFiles ufail pr.files,
        parsedFiles := some pr.files, uploaded := fo.uploaded,
        rejected := fo.rejected, payloadSent := fo.payloadSent }

/-- The exported request handler: CORS headers, OPTIONS/method
short-circuits, origin enforcement, rate limiting, then the try block.
`now` is `Date.now()`, `rl` the current `rateLimitMap`. -/
def handler (cfg : Config) (req : Request) (w : World) (ufail : String → Bool)
    (now : Nat) (rl : RLState) : Run :=
  let headers := sendCORS cfg req
  if req.method = "OPTIONS" then
    { status := 204, headers := headers, body := .jnull, rlMap := rl }
  else if req.method ≠ "POST" then
    { status := 405, headers := headers, body := errBody "Method not allowed", rlMap := rl }
  else if !(originOk req.origin cfg.allowedOrigins) then
    { status := 403, headers := headers, body := errBody "Forbidden", rlMap := rl }
  else
    let verdict := checkRateLimit now (clientIpOf req) rl
    if !verdict.1 then
      { status := 429, headers := headers,
        body := errBody "Too many requests. Please wait a moment.", rlMap := verdict.2 }
    else tryBlock cfg w ufail headers verdict.2

/-- Whether the upload oracle fails for a file (the loop rejects a file
iff its upload call throws or returns non-ok, both `.error`). -/
def uploadFails (w : World) (f : FileEntry) : Bool :=
  match w.upload f.filepath with
  | .error _ => true
  | .ok _ => false

/-- A deployment configuration used by the concrete counterexamples and
witnesses: one allowed origin, credentials present, no CAPTCHA secret. -/
def cfgEx : Config :=
  { allowedOrigins := ["https://good.example"], subdomain := "sub", username := "u",
    apiKey := "k", supportEmail := "s@e.co", turnstileSecret := "",
    integrationB2b := none, integrationContact := none, integrationDesign := none }

/-- A world whose parse rejects (never reached by the OPTIONS path). -/
def worldEx0 : World :=
  { parse := .error (), captcha := .ok true, upload := fun _ => .error (),
    ticket := .error (), jsonTags := fun _ => .throws }

/-- Whether the optional CAPTCHA gate (source lines 332-351) blocks the
submission: the secret is configured, a token was sent, and the
verification call returned `success: false` (a verification-service
error is fail-open and does not block). -/
def captchaBlocks (cfg : Config) (w : World) (fields : Fields) : Bool :=
  if cfg.turnstileSecret ≠ "" && jsTruthy (getField (sanitizedFields fields) "turnstileToken") then
    match w.captcha with
    | .ok false => true
    | _ => false
  else false

/-- A ticket response representing an upstream 500 failure. -/
def failResp : TicketResp := { ok := false, status := 500, text := "secret detail", tdata := ⟨0⟩ }

/-- A world reaching the ticket call with a failing upstream. -/
def c4World : World :=
  { parse := .ok { fields := [("formType", "contact-form"), ("email", "a@b.co")], files := [] },
    captcha := .ok true,
    upload := fun _ => .ok { url := "u", name := none, size := 0, content_type := "t" },
    ticket := .ok failResp, jsonTags := fun _ => .throws }

def reqOkOrigin : Request :=
  { method := "POST", origin := some "https://good.example",
    xForwardedFor := none, remoteAddress := none }

/-- A parse result missing `formType`. -/
def c6Parse : ParseOut := { fields := [("email", "a@b.co")], files := [] }

def c6World : World :=
  { parse := .ok c6Parse, captcha := .ok true,
    upload := fun _ => .ok { url := "u", name := none, size := 0, content_type := "t" },
    ticket := .ok { ok := true, status := 201, text := "", tdata := ⟨1⟩ },
    jsonTags := fun _ => .throws }

/-- One parsed file used by the C7 witness. -/
def fileX : FileEntry :=
  { filepath := "/tmp/x", originalFilename := some "x.png", newFilename := "x",
    mimetype := some "image/png" }

def c7Parse : ParseOut :=
  { fields := [("formType", "contact-form"), ("email", "a@b.co")],
    files := [("upload", FileVal.single fileX)] }

/-- A world with one parsed file, used by the C7 witness. -/
def c7World : World :=
  { parse := .ok c7Parse, captcha := .ok true,
    upload := fun _ => .ok { url := "u", name := none, size := 0, content_type := "t" },
    ticket := .ok { ok := true, status := 201, text := "", tdata := ⟨1⟩ },
    jsonTags := fun _ => .throws }

/-- Parsed files and world for the C10/C5 concrete runs: two files, the
upload of `/tmp/b` (named `bad.pdf`) fails with a simulated 500. -/
def fileGood : FileEntry :=
  { filepath := "/tmp/a", originalFilename := some "good.png", newFilename := "a",
    mimetype := some "image/png" }

def fileBad : FileEntry :=
  { filepath := "/tmp/b", originalFilename := some "bad.pdf", newFilename := "b",
    mimetype := some "application/pdf" }

def c5Parse : ParseOut :=
  { fields := [("formType", "contact-form"), ("email", "a@b.co")],
    files := [("attachments", FileVal.multi [fileGood, fileBad])] }

def c5World : World :=
  { parse := .ok c5Parse, captcha := .ok true,
    upload := fun p => if p = "/tmp/b" then .error () else
      .ok { url := "u", name := some "good.png", size := 1, content_type := "image/png" },
    ticket := .ok { ok := true, status := 201, text := "", tdata := ⟨7⟩ },
    jsonTags := fun _ => .throws }

/-! ## Theorems -/

theorem replC_append (c : Char) (r xs ys : List Char) :
    replC c r (xs ++ ys) = replC c r xs ++ replC c r ys := by
  simp [replC]

theorem escChain_char (a : Char) :
    replC '\'' "&#39;".data
      (replC '"' "&quot;".data
        (replC '>' "&gt;".data
          (replC '<' "&lt;".data
            (replC '&' "&amp;".data [a])))) = escChar a := by
  by_cases h1 : a = '&'
  · subst h1; decide
  by_cases h2 : a = '<'
  · subst h2; decide
  by_cases h3 : a = '>'
  · subst h3; decide
  by_cases h4 : a = '"'
  · subst h4; decide
  by_cases h5 : a = '\''
  · subst h5; decide
  simp [replC, escChar, h1, h2, h3, h4, h5]

theorem escChain (l : List Char) :
    replC '\'' "&#39;".data
      (replC '"' "&quot;".data
        (replC '>' "&gt;".data
          (replC '<' "&lt;".data
            (replC '&' "&amp;".data l)))) = l.flatMap escChar := by
  induction l with
  | nil => rfl
  | cons a l ih =>
      rw [show (a :: l) = [a] ++ l from rfl, replC_append, replC_append, replC_append,
        replC_append, replC_append, escChain_char a, ih]
      simp

/-- The five chained global replaces of `escapeHtml` are exactly the
single-pass per-character escaping `escChar`: the ampersand pass runs
first, so entities introduced by the later passes are never re-escaped
within one application. -/
theorem escapeHtml_data (s : String) : (escapeHtml s).data = s.data.flatMap escChar := by
  by_cases h : s = ""
  · subst h; rfl
  · simp only [escapeHtml, if_neg h]
    exact escChain s.data

/-- Escaped output never contains a raw `<`, `>`, `"` or `'`. -/
theorem escapeHtml_no_raw (s : String) : ∀ c ∈ (escapeHtml s).data, c ∉ rawForbidden := by
  intro c hc
  rw [escapeHtml_data] at hc
  rcases List.mem_flatMap.1 hc with ⟨a, _, hmem⟩
  by_cases h1 : a = '&'
  · subst h1; simp only [escChar] at hmem; fin_cases hmem <;> decide
  by_cases h2 : a = '<'
  · subst h2; simp only [escChar] at hmem; fin_cases hmem <;> decide
  by_cases h3 : a = '>'
  · subst h3; simp only [escChar] at hmem; fin_cases hmem <;> decide
  by_cases h4 : a = '"'
  · subst h4; simp only [escChar] at hmem; fin_cases hmem <;> decide
  by_cases h5 : a = '\''
  · subst h5; simp only [escChar] at hmem; fin_cases hmem <;> decide
  · simp only [escChar, if_neg h1, if_neg h2, if_neg h3, if_neg h4, if_neg h5,
      List.mem_singleton] at hmem
    subst hmem
    simp only [rawForbidden, List.mem_cons, List.not_mem_nil]
    push_neg
    exact ⟨h2, h3, h4, h5, fun h => h.elim⟩

/-- Every character of the input appears in the escaped output as its
entity (`entityOf c` is `[c]` itself for a non-special character). -/
theorem escapeHtml_entity_occurs (s : String) (c : Char) (hc : c ∈ s.data) :
    (entityOf c).data <:+: (escapeHtml s).data := by
  rw [escapeHtml_data]
  obtain ⟨l1, l2, h⟩ := List.append_of_mem hc
  rw [h, List.flatMap_append, List.flatMap_cons]
  exact ⟨l1.flatMap escChar, l2.flatMap escChar, by simp [entityOf]⟩

theorem value_infix_renderField (kv : String × String) :
    (escapeHtml (jsTrim kv.2)).data <:+: (renderField kv).data := by
  dsimp only [renderField]
  split
  · exact ⟨("\n          <div style=\"margin: 20px 0; padding: 15px; background: #f8f9fa; border-left: 3px solid #21808D; border-radius: 4px;\">\n            <strong style=\"display: block; color: #134252; margin-bottom: 8px; font-size: 15px;\">"
      ++ escapeHtml (formatFieldName kv.1)
      ++ "</strong>\n            <div style=\"color: #333; white-space: pre-wrap; line-height: 1.5;\">").data,
      "</div>\n          </div>\n        ".data, by simp [String.data_append]⟩
  · exact ⟨("\n          <div style=\"margin: 12px 0; padding: 10px 0; border-bottom: 1px solid #e9ecef;\">\n            <strong style=\"color: #134252; display: inline-block; min-width: 140px;\">"
      ++ escapeHtml (formatFieldName kv.1)
      ++ ":</strong>\n            <span style=\"color: #333;\">").data,
      "</span>\n          </div>\n        ".data, by simp [String.data_append]⟩

theorem label_infix_renderField (kv : String × String) :
    (escapeHtml (formatFieldName kv.1)).data <:+: (renderField kv).data := by
  dsimp only [renderField]
  split
  · exact ⟨"\n          <div style=\"margin: 20px 0; padding: 15px; background: #f8f9fa; border-left: 3px solid #21808D; border-radius: 4px;\">\n            <strong style=\"display: block; color: #134252; margin-bottom: 8px; font-size: 15px;\">".data,
      ("</strong>\n            <div style=\"color: #333; white-space: pre-wrap; line-height: 1.5;\">"
        ++ escapeHtml (jsTrim kv.2)
        ++ "</div>\n          </div>\n        ").data, by simp [String.data_append]⟩
  · exact ⟨"\n          <div style=\"margin: 12px 0; padding: 10px 0; border-bottom: 1px solid #e9ecef;\">\n            <strong style=\"color: #134252; display: inline-block; min-width: 140px;\">".data,
      (":</strong>\n            <span style=\"color: #333;\">"
        ++ escapeHtml (jsTrim kv.2)
        ++ "</span>\n          </div>\n        ").data, by simp [String.data_append]⟩

theorem renderField_infix_renderAll (kv : String × String) (l : Fields) (h : kv ∈ l) :
    (renderField kv).data <:+: (renderAll l).data := by
  induction l with
  | nil => cases h
  | cons hd tl ih =>
      rcases List.mem_cons.1 h with rfl | hmem
      · exact ⟨[], (renderAll tl).data, by simp [renderAll, String.data_append]⟩
      · obtain ⟨s, t, hst⟩ := ih hmem
        exact ⟨(renderField hd).data ++ s, t, by
          simp only [renderAll, String.data_append, List.append_assoc, hst]⟩

theorem renderAll_infix_body (ft : String) (fields : Fields)
    (h : dataFields fields ≠ []) :
    (renderAll (dataFields fields)).data <:+: (generateGenericTicketBody ft fields).data := by
  unfold generateGenericTicketBody
  rw [if_neg (by simpa [List.length_eq_zero] using h)]
  exact ⟨bodyHeader.data, "</div>".data, by simp [String.data_append]⟩

/-! ## Claim C1 and C8 theorems -/

/-- **C1.** For every submitted field rendered into the ticket body by the
generic renderer of the hardened handler, the interpolated value and label
are HTML-escaped before concatenation: the fragment interpolated for the
value is exactly `escapeHtml` of the trimmed value and occurs in the
returned HTML; each of the characters `< > & " '` occurring in the trimmed
value or in the humanized label appears in the returned HTML as its entity
(`&lt; &gt; &amp; &quot; &#39;`); and the interpolated fragments contain no
raw `< > " '` character. -/
theorem c1_ticket_body_escapes (ft : String) (fields : Fields) (k v : String)
    (hkv : (k, v) ∈ dataFields fields) :
    ((escapeHtml (jsTrim v)).data <:+: (generateGenericTicketBody ft fields).data)
    ∧ (∀ c ∈ (jsTrim v).data, c ∈ specialChars →
        (entityOf c).data <:+: (generateGenericTicketBody ft fields).data)
    ∧ (∀ c ∈ (formatFieldName k).data, c ∈ specialChars →
        (entityOf c).data <:+: (generateGenericTicketBody ft fields).data)
    ∧ (∀ c ∈ (escapeHtml (jsTrim v)).data, c ∉ rawForbidden)
    ∧ (∀ c ∈ (escapeHtml (formatFieldName k)).data, c ∉ rawForbidden) := by
  have hne : dataFields fields ≠ [] := List.ne_nil_of_mem hkv
  have hrf : (renderField (k, v)).data <:+: (generateGenericTicketBody ft fields).data :=
    (renderField_infix_renderAll _ _ hkv).trans (renderAll_infix_body ft fields hne)
  have hv : (escapeHtml (jsTrim v)).data <:+: (generateGenericTicketBody ft fields).data :=
    (value_infix_renderField (k, v)).trans hrf
  have hl : (escapeHtml (formatFieldName k)).data <:+: (generateGenericTicketBody ft fields).data :=
    (label_infix_renderField (k, v)).trans hrf
  exact ⟨hv,
    fun c hc _ => (escapeHtml_entity_occurs (jsTrim v) c hc).trans hv,
    fun c hc _ => (escapeHtml_entity_occurs (formatFieldName k) c hc).trans hl,
    escapeHtml_no_raw _, escapeHtml_no_raw _⟩

theorem c1_ticket_body_escapes_witness :
    (("message", "<X&>") ∈ dataFields c1Fields)
    ∧ '<' ∈ (jsTrim "<X&>").data
    ∧ '<' ∈ specialChars
    ∧ (entityOf '<').data <:+: (generateGenericTicketBody "contact-form" c1Fields).data :=
  ⟨by decide, by decide, by decide,
    (c1_ticket_body_escapes "contact-form" c1Fields "message" "<X&>" (by decide)).2.1
      '<' (by decide) (by decide)⟩

/-- **C8 counterexample.** The escaping function is not idempotent-safe:
applying `escapeHtml` to already-escaped output does double-escape the
characters already converted (the leading ampersand of every entity is
re-escaped), witnessed on the probe string containing all five of
`< > & " '`. -/
theorem c8_counterexample : escapeHtml (escapeHtml probeAllFive) ≠ escapeHtml probeAllFive := by
  decide

/-- **C8 (amended).** Escaping the probe string containing all five special
characters converts each to its entity; escaping that output again
double-escapes every entity (each `&` is re-escaped to `&amp;`, changing the
decoded meaning), so `escapeHtml` is not idempotent on escaped output;
what is preserved under re-application is safety: doubly-escaped output
still contains no raw `< > " '` character. -/
theorem c8_double_escape :
    escapeHtml probeAllFive = "&lt;&gt;&amp;&quot;&#39;"
    ∧ escapeHtml (escapeHtml probeAllFive) = "&amp;lt;&amp;gt;&amp;amp;&amp;quot;&amp;#39;"
    ∧ (∀ s : String, ∀ c ∈ (escapeHtml (escapeHtml s)).data, c ∉ rawForbidden) :=
  ⟨by decide, by decide, fun _ => escapeHtml_no_raw _⟩

theorem c8_double_escape_witness :
    ('a' ∈ (escapeHtml (escapeHtml "&a")).data) ∧ 'a' ∉ rawForbidden :=
  ⟨by decide, c8_double_escape.2.2 "&a" 'a' (by decide)⟩

/-- **C2 counterexample.** The rate limiter does not enforce a rolling
60-second window: in `c2Trace` the six same-IP requests at times
55000..61000 ms all fall within a single rolling 60-second window, yet the
sixth of them passes the rate-limit check (the window is fixed, anchored at
the first request's timestamp, so up to 10 requests can pass within one
rolling minute). -/
theorem c2_counterexample : ¬ rollingWindowRejects := by
  intro h
  have h6 := h c2Trace "ip" (by decide) 1 (by decide) (by decide)
  exact absurd h6 (by decide)

theorem crl_fresh {m : RLState} {ip : String} (now : Nat) (h : rlGet m ip = none) :
    checkRateLimit now ip m = (true, rlSet m ip ⟨now, 1⟩) := by
  simp [checkRateLimit, h]

theorem crl_in_window {m : RLState} {ip : String} {r : RLRecord} (now : Nat)
    (h : rlGet m ip = some r) (hw : now - r.start ≤ RATE_WINDOW) :
    checkRateLimit now ip m
      = (decide (r.count + 1 ≤ RATE_LIMIT), rlSet m ip ⟨r.start, r.count + 1⟩) := by
  simp only [checkRateLimit, h]
  rw [if_neg (by omega)]

theorem crl_expired {m : RLState} {ip : String} {r : RLRecord} (now : Nat)
    (h : rlGet m ip = some r) (hw : now - r.start > RATE_WINDOW) :
    checkRateLimit now ip m = (true, rlSet m ip ⟨now, 1⟩) := by
  simp only [checkRateLimit, h]
  rw [if_pos (by omega)]

theorem rlGet_rlSet (m : RLState) (ip : String) (r : RLRecord) :
    rlGet (rlSet m ip r) ip = some r := by
  unfold rlSet
  split
  · rename_i hany
    induction m with
    | nil => simp at hany
    | cons hd tl ih =>
        by_cases h : hd.1 = ip
        · simp [rlGet, List.find?, h]
        · rcases List.any_eq_true.1 hany with ⟨x, hx, hpx⟩
          rcases List.mem_cons.1 hx with rfl | hx2
          · exact absurd (of_decide_eq_true hpx) h
          · have htl : tl.any (fun kv => kv.1 = ip) = true :=
              List.any_eq_true.2 ⟨x, hx2, hpx⟩
            simpa [rlGet, List.find?, h] using ih htl
  · rename_i hany
    have hnone : m.find? (fun kv => decide (kv.1 = ip)) = none := by
      cases hf : m.find? (fun kv => decide (kv.1 = ip)) with
      | none => rfl
      | some x =>
          exfalso
          have hs : (m.find? (fun kv => decide (kv.1 = ip))).isSome := by
            rw [hf]; rfl
          rw [List.find?_isSome] at hs
          exact hany (by simpa [List.any_eq_true] using hs)
    simp [rlGet, List.find?_append, hnone, List.find?]

/-- Six same-IP requests from a fresh window, each within 60 seconds of
the first: the first five pass, the sixth is rejected. -/
theorem rl_six_in_fixed_window (m : RLState) (ip : String) (t1 t2 t3 t4 t5 t6 : Nat)
    (h0 : rlGet m ip = none)
    (h2 : t2 - t1 ≤ RATE_WINDOW) (h3 : t3 - t1 ≤ RATE_WINDOW)
    (h4 : t4 - t1 ≤ RATE_WINDOW) (h5 : t5 - t1 ≤ RATE_WINDOW)
    (h6 : t6 - t1 ≤ RATE_WINDOW) :
    runTrace [(t1, ip), (t2, ip), (t3, ip), (t4, ip), (t5, ip), (t6, ip)] m
      = [true, true, true, true, true, false] := by
  simp only [runTrace]
  rw [crl_fresh t1 h0]
  rw [crl_in_window t2 (by simpa using rlGet_rlSet m ip ⟨t1, 1⟩) (by simpa using h2)]
  rw [crl_in_window t3 (by simpa using rlGet_rlSet _ ip ⟨t1, 2⟩) (by simpa using h3)]
  rw [crl_in_window t4 (by simpa using rlGet_rlSet _ ip ⟨t1, 3⟩) (by simpa using h4)]
  rw [crl_in_window t5 (by simpa using rlGet_rlSet _ ip ⟨t1, 4⟩) (by simpa using h5)]
  rw [crl_in_window t6 (by simpa using rlGet_rlSet _ ip ⟨t1, 5⟩) (by simpa using h6)]
  simp [RATE_LIMIT]

/-! ## Shared lemmas about the upload loop and cleanup -/

theorem processFileList_calls (w : World) (l : List FileEntry) :
    (processFileList w l).calls = l.map (·.filepath) := by
  induction l with
  | nil => rfl
  | cons f fs ih =>
      unfold processFileList
      cases h : uploadFile w f <;> simp [h, ih]

theorem processFileList_counts (w : World) (l : List FileEntry) :
    (processFileList w l).uploaded.length + (processFileList w l).rejected.length = l.length := by
  induction l with
  | nil => rfl
  | cons f fs ih =>
      unfold processFileList
      cases h : uploadFile w f <;> simp [h] <;> omega

theorem uploadFile_isOk (w : World) (f : FileEntry) :
    (∃ e, uploadFile w f = .error e) ↔ uploadFails w f = true := by
  unfold uploadFile uploadFails
  cases w.upload f.filepath <;> simp

theorem processFileList_rejected (w : World) (l : List FileEntry) :
    (processFileList w l).rejected
      = (l.filter (uploadFails w)).map
          (fun f => { filename := f.originalFilename, reason := "Upload failed" }) := by
  induction l with
  | nil => rfl
  | cons f fs ih =>
      unfold processFileList uploadFile
      cases hw : w.upload f.filepath with
      | ok u =>
          have hf : uploadFails w f = false := by unfold uploadFails; rw [hw]
          simp [hw, hf, ih, List.filter_cons]
      | error e =>
          have hf : uploadFails w f = true := by unfold uploadFails; rw [hw]
          simp [hw, hf, ih, List.filter_cons]

theorem processFileList_rejected_count (w : World) (l : List FileEntry) :
    (processFileList w l).rejected.length = (l.filter (uploadFails w)).length := by
  rw [processFileList_rejected]
  simp

theorem processUploads_calls (w : World) (files : FilesMap) :
    (processUploads w files).calls = allFilePaths files := by
  induction files with
  | nil => rfl
  | cons kv rest ih =>
      unfold processUploads
      simp [ih, processFileList_calls, allFilePaths, allFiles]

theorem processUploads_counts (w : World) (files : FilesMap) :
    (processUploads w files).uploaded.length + (processUploads w files).rejected.length
      = countAllFiles files := by
  induction files with
  | nil => rfl
  | cons kv rest ih =>
      unfold processUploads
      have h := processFileList_counts w (toFilesArray kv.2)
      simp only [countAllFiles, allFiles, List.flatMap_cons, List.length_append] at *
      omega

theorem processUploads_rejected (w : World) (files : FilesMap) :
    (processUploads w files).rejected
      = ((allFiles files).filter (uploadFails w)).map
          (fun f => { filename := f.originalFilename, reason := "Upload failed" }) := by
  induction files with
  | nil => rfl
  | cons kv rest ih =>
      unfold processUploads
      simp [ih, processFileList_rejected, allFiles, List.filter_append]

theorem cleanup_fst (ufail : String → Bool) (files : FilesMap) :
    (cleanupTempFiles ufail files).map (·.1) = allFilePaths files := by
  induction files with
  | nil => rfl
  | cons kv rest ih =>
      simp only [cleanupTempFiles, allFilePaths, allFiles, List.flatMap_cons, List.map_append,
        List.map_map] at *
      simp [ih]

/-! ## Handler-level shared lemmas and fixtures -/

theorem handler_headers (cfg : Config) (req : Request) (w : World)
    (ufail : String → Bool) (now : Nat) (rl : RLState) :
    (handler cfg req w ufail now rl).headers = sendCORS cfg req := by
  unfold handler tryBlock
  dsimp only
  repeat' split <;> try rfl

theorem sendCORS_no_acao (cfg : Config) (req : Request)
    (h : originOk req.origin cfg.allowedOrigins = false) :
    "Access-Control-Allow-Origin" ∉ (sendCORS cfg req).map (·.1) := by
  simp [sendCORS, h]

/-- **C3 counterexample.** A request whose Origin is not in the allow-list
is not always answered with 403: an OPTIONS preflight short-circuits to
204 before the origin check. -/
theorem c3_counterexample :
    (handler cfgEx
        { method := "OPTIONS", origin := some "https://evil.example",
          xForwardedFor := none, remoteAddress := none }
        worldEx0 (fun _ => false) 0 []).status = 204
    ∧ ("https://evil.example" ∈ cfgEx.allowedOrigins → False) := by
  constructor
  · rfl
  · decide

/-- **C3 (amended).** For every POST request whose Origin header is absent,
empty or not in the allow-list, the handler responds 403 `Forbidden`; and
for every request (any method) with such an origin, the response carries no
`Access-Control-Allow-Origin` header. (OPTIONS preflights and non-POST
methods short-circuit to 204/405 before the origin check, which is what
the counterexample exhibits.) -/
theorem c3_origin_enforced (cfg : Config) (req : Request) (w : World)
    (ufail : String → Bool) (now : Nat) (rl : RLState)
    (hm : req.method = "POST")
    (ho : originOk req.origin cfg.allowedOrigins = false) :
    (handler cfg req w ufail now rl).status = 403
    ∧ (handler cfg req w ufail now rl).body = errBody "Forbidden"
    ∧ (∀ req2 : Request, originOk req2.origin cfg.allowedOrigins = false →
        "Access-Control-Allow-Origin"
          ∉ ((handler cfg req2 w ufail now rl).headers).map (·.1)) := by
  refine ⟨?_, ?_, ?_⟩
  · simp [handler, hm, ho]
  · simp [handler, hm, ho]
  · intro req2 ho2
    rw [handler_headers]
    exact sendCORS_no_acao cfg req2 ho2

theorem c3_origin_enforced_witness :
    (handler cfgEx
        { method := "POST", origin := some "https://evil.example",
          xForwardedFor := none, remoteAddress := none }
        worldEx0 (fun _ => false) 0 []).status = 403
    ∧ originOk (some "https://evil.example") cfgEx.allowedOrigins = false :=
  ⟨(c3_origin_enforced cfgEx
      { method := "POST", origin := some "https://evil.example",
        xForwardedFor := none, remoteAddress := none }
      worldEx0 (fun _ => false) 0 [] (by decide) (by decide)).1,
    by decide⟩

/-- When every validation gate passes, `mainFlow` is the core pipeline on
the subject-sanitized fields. -/
theorem mainFlow_eq_core (cfg : Config) (w : World) (fields : Fields) (files : FilesMap)
    (hcreds : credsMissing cfg = false)
    (hft : jsTruthy (getField fields "formType") = true)
    (hem : jsTruthy (getField fields "email") = true)
    (hfta : ALLOWED_FORM_TYPES.contains (getFieldD fields "formType") = true)
    (hemr : emailRegexTest (getFieldD fields "email") = true)
    (hlen : fields.any (fun kv => kv.2.data.length > MAX_FIELD_LENGTH) = false)
    (hcap : captchaBlocks cfg w fields = false) :
    mainFlow cfg w fields files = corePipeline cfg w (sanitizedFields fields) files := by
  unfold mainFlow
  simp only [hcreds, hft, hem, hfta, hemr, hlen, Bool.not_true, Bool.or_self,
    Bool.false_or, Bool.not_false, if_false, if_true, Bool.false_eq_true, ite_false, ite_true]
  unfold captchaBlocks at hcap
  by_cases hc : (cfg.turnstileSecret ≠ ""
      && jsTruthy (getField (sanitizedFields fields) "turnstileToken")) = true
  · rw [if_pos hc] at hcap
    rw [if_pos hc]
    cases hcapt : w.captcha with
    | error e => rfl
    | ok b =>
        rw [hcapt] at hcap
        cases b with
        | false => exact absurd hcap (by decide)
        | true => rfl
  · rw [if_neg hc] at hcap
    rw [if_neg hc]

/-- **C4.** Whenever the handler reaches the external ticket-creation call
and that call returns a non-success HTTP status, the response is 502 and
its body is the fixed string
`Failed to submit your inquiry. Please try again later.` — a constant,
hence free of the upstream response body, status, stack traces, and any
credential or subdomain information (which the 502 arm only logs); the
conclusion also records that the ticket call was indeed made. -/
theorem c4_upstream_failure_masked (cfg : Config) (req : Request) (w : World)
    (ufail : String → Bool) (now : Nat) (rl : RLState) (pr : ParseOut) (r : TicketResp)
    (hm : req.method = "POST")
    (ho : originOk req.origin cfg.allowedOrigins = true)
    (hrl : (checkRateLimit now (clientIpOf req) rl).1 = true)
    (hp : w.parse = .ok pr)
    (hcreds : credsMissing cfg = false)
    (hft : jsTruthy (getField pr.fields "formType") = true)
    (hem : jsTruthy (getField pr.fields "email") = true)
    (hfta : ALLOWED_FORM_TYPES.contains (getFieldD pr.fields "formType") = true)
    (hemr : emailRegexTest (getFieldD pr.fields "email") = true)
    (hlen : pr.fields.any (fun kv => kv.2.data.length > MAX_FIELD_LENGTH) = false)
    (hcap : captchaBlocks cfg w pr.fields = false)
    (ht : w.ticket = .ok r) (hok : r.ok = false) :
    (handler cfg req w ufail now rl).status = 502
    ∧ (handler cfg req w ufail now rl).body
        = errBody "Failed to submit your inquiry. Please try again later."
    ∧ (handler cfg req w ufail now rl).ticketCalled = true := by
  have hcore := mainFlow_eq_core cfg w pr.fields pr.files hcreds hft hem hfta hemr hlen hcap
  unfold handler tryBlock
  dsimp only
  rw [hm]
  simp only [hp, ho, hrl]
  rw [hcore]
  unfold corePipeline
  dsimp only
  rw [ht]
  simp [hok]

theorem c4_upstream_failure_masked_witness :
    (handler cfgEx reqOkOrigin c4World (fun _ => false) 0 []).status = 502
    ∧ (handler cfgEx reqOkOrigin c4World (fun _ => false) 0 []).ticketCalled = true := by
  have h := c4_upstream_failure_masked cfgEx reqOkOrigin c4World (fun _ => false) 0 []
    { fields := [("formType", "contact-form"), ("email", "a@b.co")], files := [] } failResp
    rfl (by decide) (by decide) rfl (by decide) (by decide) (by decide) (by decide)
    (by decide) (by decide) (by decide) rfl rfl
  exact ⟨h.1, h.2.2⟩

/-- **C6.** For every POST submission that reaches field validation
(allowed origin, within the rate limit, parse succeeded, credentials
configured) in which `formType` or `email` is absent or empty, the
handler responds 400 with body `Missing required fields`, and no
attachment-upload call and no ticket-creation call is made. -/
theorem c6_missing_required (cfg : Config) (req : Request) (w : World)
    (ufail : String → Bool) (now : Nat) (rl : RLState) (pr : ParseOut)
    (hm : req.method = "POST")
    (ho : originOk req.origin cfg.allowedOrigins = true)
    (hrl : (checkRateLimit now (clientIpOf req) rl).1 = true)
    (hp : w.parse = .ok pr)
    (hcreds : credsMissing cfg = false)
    (hreq : jsTruthy (getField pr.fields "formType") = false
            ∨ jsTruthy (getField pr.fields "email") = false) :
    (handler cfg req w ufail now rl).status = 400
    ∧ (handler cfg req w ufail now rl).body = errBody "Missing required fields"
    ∧ (handler cfg req w ufail now rl).uploadCalls = []
    ∧ (handler cfg req w ufail now rl).ticketCalled = false := by
  have hcond : (!(jsTruthy (getField pr.fields "formType"))
      || !(jsTruthy (getField pr.fields "email"))) = true := by
    rcases hreq with h | h <;> simp [h]
  unfold handler tryBlock mainFlow
  dsimp only
  rw [hm]
  simp [ho, hrl, hp, hcreds, hcond, flowErr]

theorem c6_missing_required_witness :
    (handler cfgEx reqOkOrigin c6World (fun _ => false) 0 []).status = 400
    ∧ (handler cfgEx reqOkOrigin c6World (fun _ => false) 0 []).uploadCalls = []
    ∧ (handler cfgEx reqOkOrigin c6World (fun _ => false) 0 []).ticketCalled = false := by
  have h := c6_missing_required cfgEx reqOkOrigin c6World (fun _ => false) 0 [] c6Parse
    rfl (by decide) (by decide) rfl (by decide) (Or.inl (by decide))
  exact ⟨h.1, h.2.2.1, h.2.2.2⟩

/-- **C7.** On every exit path of the POST handler on which multipart
parsing produced files (success, any validation failure, upload failures,
upstream ticket failure, or the caught unexpected-exception path), every
temporary file of the parse result is unlink-attempted by the `finally`
cleanup; and deletion failures are swallowed: the response and the set of
attempted paths do not depend on the unlink-failure oracle. -/
theorem c7_cleanup_every_exit (cfg : Config) (req : Request) (w : World)
    (ufail : String → Bool) (now : Nat) (rl : RLState) (fs : FilesMap)
    (hpf : (handler cfg req w ufail now rl).parsedFiles = some fs) :
    ((handler cfg req w ufail now rl).unlinkAttempts).map (·.1) = allFilePaths fs
    ∧ (∀ u1 u2 : String → Bool,
        (handler cfg req w u1 now rl).status = (handler cfg req w u2 now rl).status
        ∧ (handler cfg req w u1 now rl).body = (handler cfg req w u2 now rl).body
        ∧ ((handler cfg req w u1 now rl).unlinkAttempts).map (·.1)
            = ((handler cfg req w u2 now rl).unlinkAttempts).map (·.1)) := by
  by_cases h1 : req.method = "OPTIONS"
  · simp [handler, h1] at hpf
  · by_cases h2 : req.method = "POST"
    · by_cases h3 : originOk req.origin cfg.allowedOrigins = true
      · by_cases h4 : (checkRateLimit now (clientIpOf req) rl).1 = true
        · cases hpw : w.parse with
          | error e => simp [handler, tryBlock, h1, h2, h3, h4, hpw] at hpf
          | ok pr =>
              have hfs : pr.files = fs := by
                simpa [handler, tryBlock, h1, h2, h3, h4, hpw] using hpf
              subst hfs
              constructor
              · simp [handler, tryBlock, h1, h2, h3, h4, hpw, cleanup_fst]
              · intro u1 u2
                refine ⟨?_, ?_, ?_⟩ <;>
                  simp [handler, tryBlock, h1, h2, h3, h4, hpw, cleanup_fst]
        · simp [handler, h1, h2, h3, h4] at hpf
      · simp [handler, h1, h2, h3] at hpf
    · simp [handler, h1, h2] at hpf

theorem c7_cleanup_every_exit_witness :
    ((handler cfgEx reqOkOrigin c7World (fun _ => true) 0 []).unlinkAttempts).map (·.1)
      = ["/tmp/x"] := by
  have h := c7_cleanup_every_exit cfgEx reqOkOrigin c7World (fun _ => true) 0 []
    c7Parse.files (by decide)
  rw [h.1]
  decide

/-- **C10.** File accounting: each parsed file yields exactly one entry in
either the uploaded or the rejected list, so uploaded + rejected equals
the number of parsed files; and on a completed submission the success
response's `filesUploaded + filesRejected` equals the total number of
parsed files. -/
theorem c10_file_accounting (cfg : Config) (req : Request) (w : World)
    (ufail : String → Bool) (now : Nat) (rl : RLState) (pr : ParseOut) (r : TicketResp)
    (hm : req.method = "POST")
    (ho : originOk req.origin cfg.allowedOrigins = true)
    (hrl : (checkRateLimit now (clientIpOf req) rl).1 = true)
    (hp : w.parse = .ok pr)
    (hcreds : credsMissing cfg = false)
    (hft : jsTruthy (getField pr.fields "formType") = true)
    (hem : jsTruthy (getField pr.fields "email") = true)
    (hfta : ALLOWED_FORM_TYPES.contains (getFieldD pr.fields "formType") = true)
    (hemr : emailRegexTest (getFieldD pr.fields "email") = true)
    (hlen : pr.fields.any (fun kv => kv.2.data.length > MAX_FIELD_LENGTH) = false)
    (hcap : captchaBlocks cfg w pr.fields = false)
    (ht : w.ticket = .ok r) (hok : r.ok = true) :
    (∀ files : FilesMap,
      (processUploads w files).uploaded.length + (processUploads w files).rejected.length
        = countAllFiles files)
    ∧ (handler cfg req w ufail now rl).status = 200
    ∧ bodyNum (handler cfg req w ufail now rl).body "filesUploaded"
        + bodyNum (handler cfg req w ufail now rl).body "filesRejected"
        = countAllFiles pr.files := by
  have hcore := mainFlow_eq_core cfg w pr.fields pr.files hcreds hft hem hfta hemr hlen hcap
  refine ⟨fun files => processUploads_counts w files, ?_⟩
  unfold handler tryBlock
  dsimp only
  rw [hm]
  simp only [hp, ho, hrl]
  rw [hcore]
  unfold corePipeline
  dsimp only
  rw [ht]
  simp only [hok, if_true, ite_true]
  refine ⟨by simp, ?_⟩
  simp [bodyNum, List.find?]
  exact processUploads_counts w pr.files

theorem c10_file_accounting_witness :
    (handler cfgEx reqOkOrigin c5World (fun _ => false) 0 []).status = 200
    ∧ bodyNum (handler cfgEx reqOkOrigin c5World (fun _ => false) 0 []).body "filesUploaded"
        + bodyNum (handler cfgEx reqOkOrigin c5World (fun _ => false) 0 []).body "filesRejected"
        = countAllFiles c5Parse.files := by
  have h := c10_file_accounting cfgEx reqOkOrigin c5World (fun _ => false) 0 [] c5Parse
    { ok := true, status := 201, text := "", tdata := ⟨7⟩ }
    rfl (by decide) (by decide) rfl (by decide) (by decide) (by decide) (by decide)
    (by decide) (by decide) (by decide) rfl rfl
  exact h.2

/-- **C5 counterexample.** In the hardened handler a submission with a
failed upload still succeeds and reports the rejected count, but the
rejected file's name does not appear anywhere in the response body: the
internal rejected list (with the filename) is never returned to the
caller. -/
theorem c5_counterexample :
    (handler cfgEx reqOkOrigin c5World (fun _ => false) 0 []).status = 200
    ∧ (handler cfgEx reqOkOrigin c5World (fun _ => false) 0 []).rejected
        = [{ filename := some "bad.pdf", reason := "Upload failed" }]
    ∧ bodyNum (handler cfgEx reqOkOrigin c5World (fun _ => false) 0 []).body "filesRejected" = 1
    ∧ JVal.hasStr (handler cfgEx reqOkOrigin c5World (fun _ => false) 0 []).body "bad.pdf"
        = false := by
  refine ⟨?_, ?_, ?_, ?_⟩ <;> decide

/-- **C5 (amended).** For a submission with `n` parsed files of which the
upload call fails for exactly `k`, each failure is isolated per file
(every file's upload is attempted), the ticket-creation call still
proceeds, and the success response reports `filesUploaded = n - k` and
`filesRejected = k`; the rejected files' names are recorded (with the
generic reason `Upload failed`) in the handler's internal rejected list,
which the hardened success response does not return — only the counts. -/
theorem c5_partial_upload_failure (cfg : Config) (req : Request) (w : World)
    (ufail : String → Bool) (now : Nat) (rl : RLState) (pr : ParseOut) (r : TicketResp)
    (hm : req.method = "POST")
    (ho : originOk req.origin cfg.allowedOrigins = true)
    (hrl : (checkRateLimit now (clientIpOf req) rl).1 = true)
    (hp : w.parse = .ok pr)
    (hcreds : credsMissing cfg = false)
    (hft : jsTruthy (getField pr.fields "formType") = true)
    (hem : jsTruthy (getField pr.fields "email") = true)
    (hfta : ALLOWED_FORM_TYPES.contains (getFieldD pr.fields "formType") = true)
    (hemr : emailRegexTest (getFieldD pr.fields "email") = true)
    (hlen : pr.fields.any (fun kv => kv.2.data.length > MAX_FIELD_LENGTH) = false)
    (hcap : captchaBlocks cfg w pr.fields = false)
    (ht : w.ticket = .ok r) (hok : r.ok = true) :
    (handler cfg req w ufail now rl).status = 200
    ∧ bodyNum (handler cfg req w ufail now rl).body "filesUploaded"
        = countAllFiles pr.files - ((allFiles pr.files).filter (uploadFails w)).length
    ∧ bodyNum (handler cfg req w ufail now rl).body "filesRejected"
        = ((allFiles pr.files).filter (uploadFails w)).length
    ∧ (handler cfg req w ufail now rl).rejected
        = ((allFiles pr.files).filter (uploadFails w)).map
            (fun f => { filename := f.originalFilename, reason := "Upload failed" })
    ∧ (handler cfg req w ufail now rl).uploadCalls = allFilePaths pr.files
    ∧ (handler cfg req w ufail now rl).ticketCalled = true := by
  have hcore := mainFlow_eq_core cfg w pr.fields pr.files hcreds hft hem hfta hemr hlen hcap
  have hcnt := processUploads_counts w pr.files
  have hrej := processUploads_rejected w pr.files
  have hrejc : (processUploads w pr.files).rejected.length
      = ((allFiles pr.files).filter (uploadFails w)).length := by
    rw [hrej]; simp
  unfold handler tryBlock
  dsimp only
  rw [hm]
  simp only [hp, ho, hrl]
  rw [hcore]
  unfold corePipeline
  dsimp only
  rw [ht]
  simp only [hok, if_true, ite_true]
  refine ⟨by simp, ?_, ?_, ?_, ?_, ?_⟩
  · simp [bodyNum, List.find?]
    omega
  · simp [bodyNum, List.find?]
    exact hrejc
  · simpa using hrej
  · simpa using processUploads_calls w pr.files
  · simp

theorem c5_partial_upload_failure_witness :
    bodyNum (handler cfgEx reqOkOrigin c5World (fun _ => false) 0 []).body "filesUploaded" = 1
    ∧ bodyNum (handler cfgEx reqOkOrigin c5World (fun _ => false) 0 []).body "filesRejected" = 1
    ∧ (handler cfgEx reqOkOrigin c5World (fun _ => false) 0 []).ticketCalled = true := by
  have h := c5_partial_upload_failure cfgEx reqOkOrigin c5World (fun _ => false) 0 [] c5Parse
    { ok := true, status := 201, text := "", tdata := ⟨7⟩ }
    rfl (by decide) (by decide) rfl (by decide) (by decide) (by decide) (by decide)
    (by decide) (by decide) (by decide) rfl rfl
  refine ⟨?_, ?_, h.2.2.2.2.2⟩
  · rw [h.2.1]; decide
  · rw [h.2.2.1]; decide

/-- **C9.** Tag resolution: a truthy `tags` field parsed by `JSON.parse`
into an array yields that array's (stringified) elements, each truncated
to 100 characters; a parse exception falls back to comma-splitting into
trimmed non-empty tags, each truncated to 100 characters; when neither
yields tags (non-array JSON, empty comma-split, or an absent/empty
field), the single tag is the form type; every resulting tag is at most
100 characters long whenever the form type is one of the allow-listed
ones (which the handler guarantees before tags are computed); and the
ticket payload sent upstream carries exactly these resolved tags. -/
theorem c9_tag_resolution (jp : String → JsonArrParse) (ft t : String) (es : List String) :
    (t ≠ "" → jp t = .array es →
        resolveTags jp ft (some t) = es.map fun e => ⟨jsSubstringTo 100 e⟩)
    ∧ (t ≠ "" → jp t = .throws → commaTags t ≠ [] →
        resolveTags jp ft (some t) = (commaTags t).map fun s => ⟨jsSubstringTo 100 s⟩)
    ∧ (t ≠ "" → jp t = .throws → commaTags t = [] →
        resolveTags jp ft (some t) = [⟨ft⟩])
    ∧ (t ≠ "" → jp t = .nonArray → resolveTags jp ft (some t) = [⟨ft⟩])
    ∧ (resolveTags jp ft none = [⟨ft⟩] ∧ resolveTags jp ft (some "") = [⟨ft⟩])
    ∧ (∀ tf : Option String, ft ∈ ALLOWED_FORM_TYPES →
        ∀ tg ∈ resolveTags jp ft tf, tg.name.data.length ≤ 100)
    ∧ (∀ (cfg : Config) (w : World) (fields : Fields) (files : FilesMap) (p : TicketPayload),
        (corePipeline cfg w fields files).payloadSent = some p →
        p.tags = resolveTags w.jsonTags (getFieldD fields "formType")
          (getField fields "tags")) := by
  have hftLen : ft ∈ ALLOWED_FORM_TYPES → ft.data.length ≤ 100 := by
    intro hmem
    fin_cases hmem <;> decide
  refine ⟨?_, ?_, ?_, ?_, ⟨rfl, by simp [resolveTags, jsTruthy]⟩, ?_, ?_⟩
  · intro ht harr
    simp [resolveTags, jsTruthy, ht, harr]
  · intro ht hthr hne
    have hlen : (commaTags t).length > 0 := by
      cases hc : commaTags t with
      | nil => exact absurd hc hne
      | cons a l => simp
    simp [resolveTags, jsTruthy, ht, hthr, hlen]
  · intro ht hthr hemp
    simp [resolveTags, jsTruthy, ht, hthr, hemp]
  · intro ht hna
    simp [resolveTags, jsTruthy, ht, hna]
  · intro tf hmem tg htg
    unfold resolveTags at htg
    split at htg
    · rename_i htf
      split at htg
      · rename_i es2 _
        rcases List.mem_map.1 htg with ⟨e, _, rfl⟩
        simp [jsSubstringTo]
      · simp at htg
        subst htg
        exact hftLen hmem
      · split at htg
        · rcases List.mem_map.1 htg with ⟨e, _, rfl⟩
          simp [jsSubstringTo]
        · simp at htg
          subst htg
          exact hftLen hmem
    · simp at htg
      subst htg
      exact hftLen hmem
  · intro cfg w fields files p hps
    unfold corePipeline at hps
    dsimp only at hps
    cases hw : w.ticket with
    | error e =>
        rw [hw] at hps
        simp at hps
        rw [← hps]
    | ok r =>
        rw [hw] at hps
        by_cases hr : r.ok = true
        · simp [hr] at hps
          rw [← hps]
        · simp [hr] at hps
          rw [← hps]

theorem c9_tag_resolution_witness :
    resolveTags (fun _ => JsonArrParse.array ["x", "y"]) "b2b-form" (some "[\"x\",\"y\"]")
      = [⟨jsSubstringTo 100 "x"⟩, ⟨jsSubstringTo 100 "y"⟩]
    ∧ resolveTags (fun _ => JsonArrParse.throws) "b2b-form" (some "a, b")
      = [⟨jsSubstringTo 100 "a"⟩, ⟨jsSubstringTo 100 "b"⟩] := by
  constructor
  · exact (c9_tag_resolution (fun _ => JsonArrParse.array ["x", "y"]) "b2b-form"
      "[\"x\",\"y\"]" ["x", "y"]).1 (by decide) rfl
  · have h := (c9_tag_resolution (fun _ => JsonArrParse.throws) "b2b-form"
      "a, b" []).2.1 (by decide) rfl (by decide)
    rw [h]
    decide

/-- **C2 (amended).** The rate limiter enforces a fixed 60-second window
anchored at the recorded per-IP window start (not a rolling window):
(1) six same-IP requests starting from a fresh record, each arriving
within 60 seconds of the first, give five passes and a sixth rejection;
(2) a request arriving more than 60 seconds after the recorded window
start resets the counter to 1 and passes;
(3) a POST request from an allowed origin that fails the rate-limit
check is answered with HTTP 429. -/
theorem c2_fixed_window :
    (∀ (m : RLState) (ip : String) (t1 t2 t3 t4 t5 t6 : Nat),
      rlGet m ip = none →
      t2 - t1 ≤ RATE_WINDOW → t3 - t1 ≤ RATE_WINDOW → t4 - t1 ≤ RATE_WINDOW →
      t5 - t1 ≤ RATE_WINDOW → t6 - t1 ≤ RATE_WINDOW →
      runTrace [(t1, ip), (t2, ip), (t3, ip), (t4, ip), (t5, ip), (t6, ip)] m
        = [true, true, true, true, true, false])
    ∧ (∀ (m : RLState) (ip : String) (r : RLRecord) (now : Nat),
        rlGet m ip = some r → now - r.start > RATE_WINDOW →
        checkRateLimit now ip m = (true, rlSet m ip ⟨now, 1⟩))
    ∧ (∀ (cfg : Config) (req : Request) (w : World) (ufail : String → Bool)
        (now : Nat) (rl : RLState),
        req.method = "POST" → originOk req.origin cfg.allowedOrigins = true →
        (checkRateLimit now (clientIpOf req) rl).1 = false →
        (handler cfg req w ufail now rl).status = 429) := by
  refine ⟨?_, ?_, ?_⟩
  · intro m ip t1 t2 t3 t4 t5 t6 h0 h2 h3 h4 h5 h6
    exact rl_six_in_fixed_window m ip t1 t2 t3 t4 t5 t6 h0 h2 h3 h4 h5 h6
  · intro m ip r now h hw
    exact crl_expired now h hw
  · intro cfg req w ufail now rl hm ho hrl
    unfold handler
    dsimp only
    rw [hm]
    simp [ho, hrl]

theorem c2_fixed_window_witness :
    runTrace [(0, "a"), (1, "a"), (2, "a"), (3, "a"), (4, "a"), (5, "a")] []
      = [true, true, true, true, true, false]
    ∧ checkRateLimit 70000 "a" [("a", ⟨0, 5⟩)] = (true, [("a", ⟨70000, 1⟩)]) := by
  constructor
  · exact c2_fixed_window.1 [] "a" 0 1 2 3 4 5 (by decide) (by decide) (by decide)
      (by decide) (by decide) (by decide)
  · have h := c2_fixed_window.2.1 [("a", ⟨0, 5⟩)] "a" ⟨0, 5⟩ 70000 (by decide) (by decide)
    rw [h]
    decide

end Gorgias
